import Mathlib

/-!
Verification development for the `DisplayPage` view of the linkapp
repository (`src/src/pages/DisplayPage.jsx`).

The component is a single React view: given a URL slug it performs a
sequence of reads against a managed datastore (supabase) — page by slug,
avatar by user id, links by page id ordered by creation time, then the
current authenticated viewer — and renders one of four mutually exclusive
views (loading spinner, error message, "page not found", loaded card).

The embedding below models:
* the datastore rows the component reads (`PageRow`, `ImageRow`,
  `LinkRow`) and the authenticated viewer (`AuthUser`);
* the backend boundary (`Backend`): row tables plus injectable
  infrastructure failures (`pageGlitch`, `avatarGlitch`, `linksGlitch`)
  and the current viewer.  The PostgREST `.single()` modifier is modelled
  by `singleResult` (error code `PGRST116` on a non-single result set) and
  the ascending `.order` modifier of the links query by an insertion sort
  on the filtered rows;
* the async fetch effect `fetchPageAndLinks` as a sequential state
  transformer `loadPage` on the component's `useState` cells, which also
  records the trace of network calls issued (`calls`), the navigation
  performed (`navigatedTo`) and the `console.error` output
  (`consoleErrors`).  The source awaits each call before the next, so a
  linear trace is a faithful model: no two calls are in flight at once;
* the render function `renderView`, the pure helpers `getFaviconUrl`
  (the host-environment URL parser is an opaque boundary, passed in as
  `hostOf : String → Option String`, exceptions modelled by `none`),
  `handleAvatarClick`, the conditional edit button `editLink`, and the
  image `onError` fallback (`failLoad`).
-/

/-- A row of the `pages` table: slug-identified page with a title, a
description and the owning user's id. -/
structure PageRow where
  id : String
  slug : String
  title : String
  descr : String
  user_id : String
deriving DecidableEq, Repr

/-- A row of the `images` table: an avatar image URL keyed by user id. -/
structure ImageRow where
  user_id : String
  image_url : String
deriving DecidableEq, Repr

/-- A row of the `links` table: one outbound link of a page, with optional
image and a creation timestamp used for ordering. -/
structure LinkRow where
  id : String
  page_id : String
  url : String
  title : String
  descr : String
  image_url : Option String
  created_at : Nat
deriving DecidableEq, Repr

/-- The authenticated viewer returned by the auth call. -/
structure AuthUser where
  id : String
deriving DecidableEq, Repr

/-- A supabase/PostgREST error value, carrying the error code the
component inspects. -/
structure DbError where
  code : String
  message : String
deriving DecidableEq, Repr

/-- The PostgREST error produced by `.single()` when the result set does
not hold exactly one row. -/
def noRowsError : DbError :=
  { code := "PGRST116"
    message := "JSON object requested but not a single row returned" }

/-- Semantics of the `.single()` query modifier: an injected
infrastructure failure if any, else the unique row, else `noRowsError`. -/
def singleResult {α : Type} (glitch : Option DbError) (rows : List α) :
    Except DbError α :=
  match glitch with
  | some e => Except.error e
  | none =>
    match rows with
    | [a] => Except.ok a
    | _ => Except.error noRowsError

/-- The backend boundary: the three tables read by the component, the
current authenticated viewer, and injectable failures for each query. -/
structure Backend where
  pages : List PageRow
  images : List ImageRow
  links : List LinkRow
  pageGlitch : Option DbError
  avatarGlitch : Option DbError
  linksGlitch : Option DbError
  authUser : Option AuthUser
deriving Repr

/-- The page query of the source: select from `pages` filtered on the
slug, as a single row. -/
def pagesQuery (b : Backend) (slug : String) : Except DbError PageRow :=
  singleResult b.pageGlitch (b.pages.filter (fun p => decide (p.slug = slug)))

/-- The avatar query of the source: select `image_url` from `images`
filtered on the user id, as a single row. -/
def imagesQuery (b : Backend) (uid : String) : Except DbError String :=
  singleResult b.avatarGlitch
    ((b.images.filter (fun r => decide (r.user_id = uid))).map ImageRow.image_url)

/-- Ordering relation of the links query: ascending creation timestamp. -/
def linkLE (a c : LinkRow) : Prop := a.created_at ≤ c.created_at

instance : DecidableRel linkLE := fun a c => Nat.decLe a.created_at c.created_at

instance : IsTotal LinkRow linkLE := ⟨fun a c => Nat.le_total a.created_at c.created_at⟩

instance : IsTrans LinkRow linkLE := ⟨fun _ _ _ h h2 => Nat.le_trans h h2⟩

/-- The links query of the source: select from `links` filtered on the
page id, ordered by `created_at` ascending. -/
def linksQuery (b : Backend) (pid : String) : Except DbError (List LinkRow) :=
  match b.linksGlitch with
  | some e => Except.error e
  | none =>
    Except.ok (List.insertionSort linkLE
      (b.links.filter (fun l => decide (l.page_id = pid))))

/-- One network call issued by the fetch effect, with the identifier it
was keyed on. -/
inductive Call where
  | pageBySlug (slug : String)
  | avatarByUserId (uid : String)
  | linksByPageId (pid : String)
  | getUser
deriving DecidableEq, Repr

/-- The component's state: the `useState` cells of `DisplayPage`, plus the
observable effects of a load (navigation, console output, call trace). -/
structure CState where
  page : Option PageRow
  links : List LinkRow
  loading : Bool
  error : Option String
  user : Option AuthUser
  avatarUrl : Option String
  navigatedTo : Option String
  consoleErrors : List String
  calls : List Call
deriving DecidableEq, Repr

/-- The state at mount: all cells at their `useState` initial values. -/
def initialState : CState :=
  { page := none
    links := []
    loading := true
    error := none
    user := none
    avatarUrl := none
    navigatedTo := none
    consoleErrors := []
    calls := [] }

/-- The generic failure message set by the `catch` block. -/
def genericError : String := "Failed to load page. Please try again."

/-- The `fetchPageAndLinks` effect, run once per mount from
`initialState`: fetch the page by slug (`PGRST116` → navigate to `/404`
and return; other error → throw, caught as the generic error); on success
set the page, fetch the avatar (error only logged), fetch the links
(error thrown, caught as the generic error), then the viewer identity;
`finally` clears the loading flag.  Each `await` is sequential, so the
`calls` trace lists the network calls in issue order. -/
def loadPage (b : Backend) (slug : String) : CState :=
  match pagesQuery b slug with
  | Except.error e =>
    if e.code = "PGRST116" then
      { initialState with
        loading := false
        navigatedTo := some "/404"
        calls := [Call.pageBySlug slug] }
    else
      { initialState with
        loading := false
        error := some genericError
        consoleErrors := ["Error fetching page: " ++ e.code]
        calls := [Call.pageBySlug slug] }
  | Except.ok pageData =>
    let afterAvatar : CState :=
      match imagesQuery b pageData.user_id with
      | Except.error e =>
        { initialState with
          page := some pageData
          consoleErrors := ["Error fetching avatar: " ++ e.code]
          calls := [Call.pageBySlug slug, Call.avatarByUserId pageData.user_id] }
      | Except.ok url =>
        { initialState with
          page := some pageData
          avatarUrl := some url
          calls := [Call.pageBySlug slug, Call.avatarByUserId pageData.user_id] }
    match linksQuery b pageData.id with
    | Except.error e =>
      { afterAvatar with
        loading := false
        error := some genericError
        consoleErrors := afterAvatar.consoleErrors ++ ["Error fetching page: " ++ e.code]
        calls := afterAvatar.calls ++ [Call.linksByPageId pageData.id] }
    | Except.ok rows =>
      { afterAvatar with
        loading := false
        links := rows
        user := b.authUser
        calls := afterAvatar.calls ++ [Call.linksByPageId pageData.id, Call.getUser] }

/-- `handleAvatarClick`: navigate to `/profile` only when the viewer owns
the page. -/
def handleAvatarClick (u : Option AuthUser) (p : PageRow) : Option String :=
  match u with
  | some v => if v.id = p.user_id then some "/profile" else none
  | none => none

/-- The conditionally rendered edit button: a link to the edit route,
present only when the viewer owns the page. -/
def editLink (u : Option AuthUser) (p : PageRow) : Option String :=
  match u with
  | some v => if v.id = p.user_id then some ("/" ++ p.slug ++ "/edit") else none
  | none => none

/-- `getFaviconUrl`: build a Google favicon-service URL from the link
URL's hostname; a malformed URL (host parser failure, i.e. the URL
constructor throwing) is caught and yields `none`. -/
def getFaviconUrl (hostOf : String → Option String) (url : String) :
    Option String :=
  match hostOf url with
  | some domain => some ("https://www.google.com/s2/favicons?domain=" ++ domain ++ "&sz=64")
  | none => none

/-- JavaScript disjunction on the image-src strings: an empty or absent
left operand falls through to the right one. -/
def jsOrString : Option String → Option String → Option String
  | some s, btr => if s = "" then btr else some s
  | none, btr => btr

/-- One rendered link card: the anchor's key, href and target, the image
source and the displayed texts. -/
structure RenderedLink where
  key : String
  href : String
  newTab : Bool
  imgSrc : Option String
  title : String
  descr : String
deriving DecidableEq, Repr

/-- The anchor rendered for one link row: keyed by the row id, pointing at
the row's URL, opening in a new browsing context, with the row's image or
the favicon fallback. -/
def mkRenderedLink (hostOf : String → Option String) (l : LinkRow) :
    RenderedLink :=
  { key := l.id
    href := l.url
    newTab := true
    imgSrc := jsOrString l.image_url (getFaviconUrl hostOf l.url)
    title := l.title
    descr := l.descr }

/-- The loaded card: avatar source and fallback glyph, texts, link cards,
edit button and avatar-click navigation target. -/
structure LoadedView where
  avatarSrc : Option String
  avatarFallback : Option Char
  title : String
  descr : String
  entries : List RenderedLink
  editButton : Option String
  avatarClickTarget : Option String
deriving DecidableEq, Repr

/-- The four mutually exclusive UI states of the component. -/
inductive View where
  | loading
  | errorView (msg : String)
  | notFound
  | loaded (lv : LoadedView)
deriving DecidableEq, Repr

/-- The render function of `DisplayPage`: the loading spinner while
loading, else the error div if an error is set, else the not-found div if
no page, else the loaded card. -/
def renderView (hostOf : String → Option String) (s : CState) : View :=
  if s.loading then View.loading
  else
    match s.error with
    | some msg => View.errorView msg
    | none =>
      match s.page with
      | none => View.notFound
      | some p =>
        View.loaded
          { avatarSrc := s.avatarUrl
            avatarFallback := p.title.data.head?
            title := p.title
            descr := p.descr
            entries := s.links.map (mkRenderedLink hostOf)
            editButton := editLink s.user p
            avatarClickTarget := handleAvatarClick s.user p }

/-- A rendered image element: its current source and whether an error
callback is still attached. -/
structure ImgElement where
  src : String
  onerror : Bool
deriving DecidableEq, Repr

/-- A link image as initially rendered: the error callback is attached. -/
def renderedImg (src : String) : ImgElement := { src := src, onerror := true }

/-- The `onError` handler of the link image: clear the element's error
callback, then substitute the default asset. -/
def imgOnError (img : ImgElement) : ImgElement :=
  { img with onerror := false, src := "/assets/react.svg" }

/-- One load failure of the image element: the attached error callback
fires, if any. -/
def failLoad (img : ImgElement) : ImgElement :=
  if img.onerror then imgOnError img else img

/- Sample data used by the witnesses. -/

/-- A sample page row. -/
def pageEx : PageRow :=
  { id := "p1", slug := "alice", title := "Alice", descr := "Hi", user_id := "u1" }

/-- A sample link row (created second). -/
def linkEx1 : LinkRow :=
  { id := "l1"
    page_id := "p1"
    url := "https://a.example"
    title := "A"
    descr := ""
    image_url := none
    created_at := 5 }

/-- A sample link row (created first). -/
def linkEx2 : LinkRow :=
  { id := "l2"
    page_id := "p1"
    url := "https://b.example"
    title := "B"
    descr := "b"
    image_url := some "https://img.example/b.png"
    created_at := 2 }

/-- A backend on which the whole load succeeds. -/
def backendOk : Backend :=
  { pages := [pageEx]
    images := [{ user_id := "u1", image_url := "https://img.example/a.png" }]
    links := [linkEx1, linkEx2]
    pageGlitch := none
    avatarGlitch := none
    linksGlitch := none
    authUser := some { id := "u1" } }

/-- A backend with no page rows: the page lookup yields `PGRST116`. -/
def backendNoPage : Backend :=
  { pages := []
    images := []
    links := []
    pageGlitch := none
    avatarGlitch := none
    linksGlitch := none
    authUser := none }

/-- A backend whose link lookup fails after a successful page lookup. -/
def backendLinksFail : Backend :=
  { pages := [pageEx]
    images := [{ user_id := "u1", image_url := "https://img.example/a.png" }]
    links := []
    pageGlitch := none
    avatarGlitch := none
    linksGlitch := some { code := "57014", message := "canceling statement" }
    authUser := some { id := "u1" } }

/-- A backend with a page but no avatar row: the avatar lookup yields
`PGRST116`. -/
def backendNoAvatar : Backend :=
  { pages := [pageEx]
    images := []
    links := [linkEx1, linkEx2]
    pageGlitch := none
    avatarGlitch := none
    linksGlitch := none
    authUser := none }

/-- A trivial host parser used to instantiate `renderView` in witnesses. -/
def noHost : String → Option String := fun _ => none

deriving instance DecidableEq for Except

/-- C1: when the page lookup fails with the specific no-rows error code
PGRST116, the loader navigates to the not-found route, aborts every
remaining step (the page lookup is the only call issued), sets no error
message, and the view renders the not-found outcome and nothing else. -/
theorem pageNotFound_redirect_silently (hostOf : String → Option String)
    (b : Backend) (slug : String) (e : DbError)
    (hq : pagesQuery b slug = Except.error e) (hc : e.code = "PGRST116") :
    (loadPage b slug).navigatedTo = some "/404" ∧
    (loadPage b slug).calls = [Call.pageBySlug slug] ∧
    (loadPage b slug).error = none ∧
    renderView hostOf (loadPage b slug) = View.notFound := by
  unfold loadPage
  rw [hq]
  simp [hc, renderView, initialState]

/-- Witness for C1 on a backend with no matching page row. -/
theorem pageNotFound_redirect_silently_witness :
    (loadPage backendNoPage "alice").navigatedTo = some "/404" ∧
    (loadPage backendNoPage "alice").calls = [Call.pageBySlug "alice"] ∧
    (loadPage backendNoPage "alice").error = none ∧
    renderView noHost (loadPage backendNoPage "alice") = View.notFound :=
  pageNotFound_redirect_silently noHost backendNoPage "alice" noRowsError
    (by decide) (by decide)

/-- C2: when the page lookup succeeds but the link lookup fails, the
loader sets the generic user-visible error string, performs no
viewer-identity call (the trace stops at the links call), does not
navigate to the not-found route, and the rendered outcome is the generic
error view. -/
theorem linkFailure_shows_generic_error (hostOf : String → Option String)
    (b : Backend) (slug : String) (p : PageRow) (e : DbError)
    (hq : pagesQuery b slug = Except.ok p) (hl : b.linksGlitch = some e) :
    (loadPage b slug).error = some genericError ∧
    (loadPage b slug).calls =
      [Call.pageBySlug slug, Call.avatarByUserId p.user_id, Call.linksByPageId p.id] ∧
    (loadPage b slug).navigatedTo = none ∧
    renderView hostOf (loadPage b slug) = View.errorView genericError := by
  unfold loadPage linksQuery
  rw [hq, hl]
  dsimp only
  cases h : imagesQuery b p.user_id <;> simp [renderView, initialState]

/-- Witness for C2 on a backend whose link lookup fails. -/
theorem linkFailure_shows_generic_error_witness :
    (loadPage backendLinksFail "alice").error = some genericError ∧
    (loadPage backendLinksFail "alice").calls =
      [Call.pageBySlug "alice", Call.avatarByUserId "u1", Call.linksByPageId "p1"] ∧
    (loadPage backendLinksFail "alice").navigatedTo = none ∧
    renderView noHost (loadPage backendLinksFail "alice") = View.errorView genericError :=
  linkFailure_shows_generic_error noHost backendLinksFail "alice" pageEx
    { code := "57014", message := "canceling statement" } (by decide) (by decide)

/-- C3: the edit affordance (link to the edit route) and the avatar-click
navigation to the profile-edit route are present if and only if there is
an authenticated viewer whose id equals the page's owning user id, and in
that case they point at the edit route and the profile route. -/
theorem edit_affordance_iff_owner (u : Option AuthUser) (p : PageRow) :
    ((editLink u p).isSome ↔ ∃ v, u = some v ∧ v.id = p.user_id) ∧
    ((handleAvatarClick u p).isSome ↔ ∃ v, u = some v ∧ v.id = p.user_id) ∧
    (∀ v, u = some v → v.id = p.user_id →
      editLink u p = some ("/" ++ p.slug ++ "/edit") ∧
      handleAvatarClick u p = some "/profile") := by
  cases u with
  | none => simp [editLink, handleAvatarClick]
  | some v =>
    by_cases h : v.id = p.user_id <;>
      simp [editLink, handleAvatarClick, h]

/-- Witness for C3 with a viewer owning the sample page. -/
theorem edit_affordance_iff_owner_witness :
    editLink (some { id := "u1" }) pageEx = some "/alice/edit" ∧
    handleAvatarClick (some { id := "u1" }) pageEx = some "/profile" :=
  (edit_affordance_iff_owner (some { id := "u1" }) pageEx).2.2 { id := "u1" } rfl (by decide)

/-- C4: on a fully successful load, the rendered list has exactly one
entry per link row of the page, the displayed rows are in ascending
creation-timestamp order, and every entry opens its target in a new
browsing context. -/
theorem loaded_links_count_order_newTab (hostOf : String → Option String)
    (b : Backend) (slug : String) (p : PageRow)
    (hq : pagesQuery b slug = Except.ok p) (hl : b.linksGlitch = none) :
    ∃ lv, renderView hostOf (loadPage b slug) = View.loaded lv ∧
      lv.entries = (loadPage b slug).links.map (mkRenderedLink hostOf) ∧
      lv.entries.length =
        (b.links.filter (fun l => decide (l.page_id = p.id))).length ∧
      List.Sorted linkLE (loadPage b slug).links ∧
      ∀ r ∈ lv.entries, r.newTab = true := by
  unfold loadPage linksQuery
  rw [hq, hl]
  dsimp only
  cases h : imagesQuery b p.user_id <;>
  · simp only [renderView, initialState]
    refine ⟨_, rfl, rfl, ?_, ?_, ?_⟩
    · simp [List.length_insertionSort]
    · exact List.sorted_insertionSort linkLE _
    · intro r hr
      simp only [List.mem_map] at hr
      obtain ⟨l, _, rfl⟩ := hr
      rfl

/-- Witness for C4 on the fully successful sample backend. -/
theorem loaded_links_count_order_newTab_witness :
    List.Sorted linkLE (loadPage backendOk "alice").links := by
  obtain ⟨lv, _, _, _, hs, _⟩ :=
    loaded_links_count_order_newTab noHost backendOk "alice" pageEx (by decide) rfl
  exact hs

/-- C5: an avatar-lookup failure (including the no-row case) is
non-fatal: it is logged, no user-visible error is set, loading proceeds
through the links and viewer-identity calls, and the view renders loaded
with no avatar source and the fallback glyph equal to the first character
of the page title. -/
theorem avatar_failure_nonfatal (hostOf : String → Option String)
    (b : Backend) (slug : String) (p : PageRow) (ae : DbError)
    (hq : pagesQuery b slug = Except.ok p)
    (ha : imagesQuery b p.user_id = Except.error ae)
    (hl : b.linksGlitch = none) :
    (loadPage b slug).consoleErrors = ["Error fetching avatar: " ++ ae.code] ∧
    (loadPage b slug).error = none ∧
    (loadPage b slug).avatarUrl = none ∧
    (loadPage b slug).calls = [Call.pageBySlug slug, Call.avatarByUserId p.user_id,
      Call.linksByPageId p.id, Call.getUser] ∧
    ∃ lv, renderView hostOf (loadPage b slug) = View.loaded lv ∧
      lv.avatarSrc = none ∧ lv.avatarFallback = p.title.data.head? := by
  unfold loadPage linksQuery
  rw [hq, hl]
  dsimp only
  rw [ha]
  simp [renderView, initialState]

/-- Witness for C5 on a backend with a page but no avatar row. -/
theorem avatar_failure_nonfatal_witness :
    (loadPage backendNoAvatar "alice").consoleErrors = ["Error fetching avatar: PGRST116"] ∧
    (loadPage backendNoAvatar "alice").error = none ∧
    (loadPage backendNoAvatar "alice").avatarUrl = none ∧
    (loadPage backendNoAvatar "alice").calls = [Call.pageBySlug "alice",
      Call.avatarByUserId "u1", Call.linksByPageId "p1", Call.getUser] :=
  have h := avatar_failure_nonfatal noHost backendNoAvatar "alice" pageEx noRowsError
    (by decide) (by decide) rfl
  ⟨h.1, h.2.1, h.2.2.1, h.2.2.2.1⟩

/-- C6: the favicon helper is a total function of the link URL: when the
host parser yields a hostname it returns the third-party favicon-service
URL built from that hostname, and when the parser fails (a malformed URL,
i.e. the URL constructor throwing) it returns no value instead of
propagating the failure. -/
theorem getFaviconUrl_hostname_or_none (hostOf : String → Option String) (url : String) :
    (∀ d, hostOf url = some d →
      getFaviconUrl hostOf url =
        some ("https://www.google.com/s2/favicons?domain=" ++ d ++ "&sz=64")) ∧
    (hostOf url = none → getFaviconUrl hostOf url = none) := by
  constructor
  · intro d hd
    simp [getFaviconUrl, hd]
  · intro hd
    simp [getFaviconUrl, hd]

/-- Witness for C6 at a well-formed and a malformed URL. -/
theorem getFaviconUrl_hostname_or_none_witness :
    getFaviconUrl (fun _ => some "a.example") "https://a.example/x" =
      some "https://www.google.com/s2/favicons?domain=a.example&sz=64" ∧
    getFaviconUrl noHost "not a url" = none :=
  ⟨(getFaviconUrl_hostname_or_none (fun _ => some "a.example") "https://a.example/x").1
      "a.example" rfl,
   (getFaviconUrl_hostname_or_none noHost "not a url").2 rfl⟩

/-- C7: the view starts in the loading state, and after any completed
load it is never in the loading state again but in exactly one of the
three terminal states: error, not-found, or loaded. -/
theorem ui_four_states (hostOf : String → Option String) :
    renderView hostOf initialState = View.loading ∧
    ∀ b slug, renderView hostOf (loadPage b slug) ≠ View.loading ∧
      ((∃ m, renderView hostOf (loadPage b slug) = View.errorView m) ∨
       renderView hostOf (loadPage b slug) = View.notFound ∨
       ∃ lv, renderView hostOf (loadPage b slug) = View.loaded lv) := by
  constructor
  · simp [renderView, initialState]
  · intro b slug
    unfold loadPage linksQuery
    cases hq : pagesQuery b slug with
    | error e =>
      by_cases hc : e.code = "PGRST116" <;> simp [hc, renderView, initialState]
    | ok p =>
      dsimp only
      cases hl : b.linksGlitch with
      | some e =>
        cases h : imagesQuery b p.user_id <;> simp [renderView, initialState]
      | none =>
        cases h : imagesQuery b p.user_id <;> simp [renderView, initialState]

/-- Witness for C7 on the fully successful sample backend. -/
theorem ui_four_states_witness :
    renderView noHost (loadPage backendOk "alice") ≠ View.loading :=
  ((ui_four_states noHost).2 backendOk "alice").1

/-- C8: the network calls of a load are issued strictly sequentially in
the fixed order page-by-slug, avatar-by-user-id, links-by-page-id,
viewer identity, the avatar and links calls being keyed by identifiers
produced by the page lookup, and a failing step truncates the trace. -/
theorem sequential_call_trace (b : Backend) (slug : String) :
    (∀ e, pagesQuery b slug = Except.error e →
      (loadPage b slug).calls = [Call.pageBySlug slug]) ∧
    (∀ p, pagesQuery b slug = Except.ok p →
      (b.linksGlitch = none →
        (loadPage b slug).calls = [Call.pageBySlug slug, Call.avatarByUserId p.user_id,
          Call.linksByPageId p.id, Call.getUser]) ∧
      (∀ e, b.linksGlitch = some e →
        (loadPage b slug).calls = [Call.pageBySlug slug, Call.avatarByUserId p.user_id,
          Call.linksByPageId p.id])) := by
  constructor
  · intro e hq
    unfold loadPage
    rw [hq]
    by_cases hc : e.code = "PGRST116" <;> simp [hc, initialState]
  · intro p hq
    constructor
    · intro hl
      unfold loadPage linksQuery
      rw [hq, hl]
      dsimp only
      cases h : imagesQuery b p.user_id <;> simp [initialState]
    · intro e hl
      unfold loadPage linksQuery
      rw [hq, hl]
      dsimp only
      cases h : imagesQuery b p.user_id <;> simp [initialState]

/-- Witness for C8 on the fully successful sample backend. -/
theorem sequential_call_trace_witness :
    (loadPage backendOk "alice").calls = [Call.pageBySlug "alice",
      Call.avatarByUserId "u1", Call.linksByPageId "p1", Call.getUser] :=
  ((sequential_call_trace backendOk "alice").2 pageEx (by decide)).1 rfl

/-- C9: when the link lookup fails the page cell has already been set by
the earlier successful page lookup, yet because the render checks the
error cell before the page cell the error view is rendered and no
partially loaded page content is shown. -/
theorem error_priority_over_partial_page (hostOf : String → Option String)
    (b : Backend) (slug : String) (p : PageRow) (e : DbError)
    (hq : pagesQuery b slug = Except.ok p) (hl : b.linksGlitch = some e) :
    (loadPage b slug).page = some p ∧
    (loadPage b slug).error = some genericError ∧
    renderView hostOf (loadPage b slug) = View.errorView genericError := by
  unfold loadPage linksQuery
  rw [hq, hl]
  dsimp only
  cases h : imagesQuery b p.user_id <;> simp [renderView, initialState]

/-- Witness for C9 on a backend whose link lookup fails. -/
theorem error_priority_over_partial_page_witness :
    (loadPage backendLinksFail "alice").page = some pageEx ∧
    (loadPage backendLinksFail "alice").error = some genericError ∧
    renderView noHost (loadPage backendLinksFail "alice") = View.errorView genericError :=
  error_priority_over_partial_page noHost backendLinksFail "alice" pageEx
    { code := "57014", message := "canceling statement" } (by decide) (by decide)

/-- An image element whose error callback has been cleared is unchanged
by further load failures. -/
theorem failLoad_of_cleared (img : ImgElement) (h : img.onerror = false) :
    failLoad img = img := by
  simp [failLoad, h]

/-- C10: the image load-failure fallback fires at most once: the handler
clears its own error callback before substituting the default asset, so
any number of further load failures leaves the element unchanged. -/
theorem image_fallback_at_most_once (src : String) :
    (failLoad (renderedImg src)).src = "/assets/react.svg" ∧
    (failLoad (renderedImg src)).onerror = false ∧
    ∀ n, failLoad^[n] (failLoad (renderedImg src)) = failLoad (renderedImg src) := by
  refine ⟨rfl, rfl, ?_⟩
  intro n
  induction n with
  | zero => rfl
  | succ k ih =>
    rw [Function.iterate_succ_apply, failLoad_of_cleared _ rfl, ih]

/-- Witness for C10: two further failures after the first change nothing. -/
theorem image_fallback_at_most_once_witness :
    failLoad^[2] (failLoad (renderedImg "https://img.example/b.png")) =
      failLoad (renderedImg "https://img.example/b.png") :=
  (image_fallback_at_most_once "https://img.example/b.png").2.2 2
